import Mathlib

/-!
Verification of the Book Publishing API (src/main.py) against its
natural-language specification.

The service is a CRUD layer over three SQLite tables (authors, publishers,
books).  We embed the store as lists of rows kept in insertion order
(SQLite AUTOINCREMENT keeps a persistent counter, modelled by the
`next*Id` fields), and each request handler as a pure function from the
store and the parsed request body to a result and the new store.

SQL semantics embedded here, matching SQLite:
  - `UNIQUE` columns (authors.email, publishers.email, books.isbn) admit
    any number of NULLs; inserting or updating to a duplicate non-NULL
    value raises an IntegrityError, which the handlers do not catch —
    modelled by the `ApiResult.storeError` constructor.
  - `LIMIT ? OFFSET ?`: a negative OFFSET acts as 0, a negative LIMIT
    means "no limit".
  - Foreign keys are declared but not enforced (no PRAGMA foreign_keys),
    so deletes never cascade and never fail on dangling references; the
    application performs its own existence checks in the book handlers.
  - Dates are stored as TEXT; we model them as `String`.  REAL prices are
    modelled as `Rat`.
-/

/-- Row of the authors table. -/
structure AuthorRow where
  id : Int
  name : String
  email : Option String
  bio : Option String
  date_registered : String
  deriving DecidableEq, Repr

/-- Row of the publishers table. -/
structure PublisherRow where
  id : Int
  name : String
  address : Option String
  phone : Option String
  email : Option String
  deriving DecidableEq, Repr

/-- Row of the books table. -/
structure BookRow where
  id : Int
  title : String
  description : Option String
  isbn : Option String
  publication_date : Option String
  price : Option Rat
  genre : Option String
  author_id : Option Int
  publisher_id : Option Int
  deriving DecidableEq, Repr

/-- Request body for POST/PUT on authors (pydantic AuthorCreate). -/
structure AuthorCreate where
  name : String
  email : Option String
  bio : Option String
  deriving DecidableEq, Repr

/-- Request body for POST/PUT on publishers (pydantic PublisherCreate). -/
structure PublisherCreate where
  name : String
  address : Option String
  phone : Option String
  email : Option String
  deriving DecidableEq, Repr

/-- Request body for POST/PUT on books (pydantic BookCreate). -/
structure BookCreate where
  title : String
  description : Option String
  isbn : Option String
  publication_date : Option String
  price : Option Rat
  genre : Option String
  author_id : Option Int
  publisher_id : Option Int
  deriving DecidableEq, Repr

/-- The persistent store: three tables in insertion order plus the
AUTOINCREMENT counters. -/
structure DB where
  authors : List AuthorRow
  publishers : List PublisherRow
  books : List BookRow
  nextAuthorId : Int
  nextPublisherId : Int
  nextBookId : Int
  deriving DecidableEq, Repr

/-- Outcome of one request: a successful payload, an HTTPException
carrying a status code and a detail string, or an exception from the
store that the handler does not catch (sqlite3.IntegrityError). -/
inductive ApiResult (α : Type) where
  | ok : α → ApiResult α
  | httpError : Nat → String → ApiResult α
  | storeError : String → ApiResult α
  deriving DecidableEq, Repr

/-- SELECT ... LIMIT ? OFFSET ? over rows already in order: negative
OFFSET acts as 0 (Int.toNat sends negatives to 0), negative LIMIT means
no limit. -/
def sqlitePage {α : Type} (rows : List α) (limit skip : Int) : List α :=
  let dropped := rows.drop skip.toNat
  if limit < 0 then dropped else dropped.take limit.toNat

/-- SELECT * FROM authors WHERE id = ? (first match, as fetchone). -/
def findAuthor (db : DB) (i : Int) : Option AuthorRow :=
  db.authors.find? (fun a => a.id == i)

/-- SELECT * FROM publishers WHERE id = ?. -/
def findPublisher (db : DB) (i : Int) : Option PublisherRow :=
  db.publishers.find? (fun p => p.id == i)

/-- SELECT * FROM books WHERE id = ?. -/
def findBook (db : DB) (i : Int) : Option BookRow :=
  db.books.find? (fun b => b.id == i)

/-- Does inserting this email violate the authors.email UNIQUE
constraint?  NULL never conflicts. -/
def authorEmailTaken (db : DB) (e : Option String) : Bool :=
  match e with
  | none => false
  | some s => db.authors.any (fun a => a.email == some s)

/-- Does updating row `i` to this email violate authors.email UNIQUE?
Only other rows can conflict. -/
def authorEmailTakenByOther (db : DB) (i : Int) (e : Option String) : Bool :=
  match e with
  | none => false
  | some s => db.authors.any (fun a => a.email == some s && a.id != i)

/-- publishers.email UNIQUE check for insert. -/
def publisherEmailTaken (db : DB) (e : Option String) : Bool :=
  match e with
  | none => false
  | some s => db.publishers.any (fun p => p.email == some s)

/-- publishers.email UNIQUE check for update of row `i`. -/
def publisherEmailTakenByOther (db : DB) (i : Int) (e : Option String) : Bool :=
  match e with
  | none => false
  | some s => db.publishers.any (fun p => p.email == some s && p.id != i)

/-- books.isbn UNIQUE check for insert. -/
def bookIsbnTaken (db : DB) (s : Option String) : Bool :=
  match s with
  | none => false
  | some v => db.books.any (fun b => b.isbn == some v)

/-- books.isbn UNIQUE check for update of row `i`. -/
def bookIsbnTakenByOther (db : DB) (i : Int) (s : Option String) : Bool :=
  match s with
  | none => false
  | some v => db.books.any (fun b => b.isbn == some v && b.id != i)

/-- SELECT id FROM authors WHERE id = ? — existence check used by the
book handlers. -/
def authorIdExists (db : DB) (i : Int) : Bool :=
  db.authors.any (fun a => a.id == i)

/-- SELECT id FROM publishers WHERE id = ?. -/
def publisherIdExists (db : DB) (i : Int) : Bool :=
  db.publishers.any (fun p => p.id == i)

/-- "Validate author_id if provided": true when author_id is non-null
and references no author row. -/
def refMissingAuthor (db : DB) (oi : Option Int) : Bool :=
  match oi with
  | none => false
  | some aid => ! authorIdExists db aid

/-- "Validate publisher_id if provided". -/
def refMissingPublisher (db : DB) (oi : Option Int) : Bool :=
  match oi with
  | none => false
  | some pid => ! publisherIdExists db pid

/-- The row INSERT INTO authors builds: id from AUTOINCREMENT,
date_registered from DEFAULT CURRENT_DATE (passed in as `today`). -/
def newAuthorRow (db : DB) (a : AuthorCreate) (today : String) : AuthorRow :=
  ⟨db.nextAuthorId, a.name, a.email, a.bio, today⟩

/-- POST /authors/ — create_author.  The INSERT may raise on the email
UNIQUE constraint; the handler has no try/except, so that surfaces as a
store exception.  On success the handler re-selects and returns the
freshly inserted row. -/
def create_author (db : DB) (a : AuthorCreate) (today : String) :
    ApiResult AuthorRow × DB :=
  if authorEmailTaken db a.email then
    (ApiResult.storeError "UNIQUE constraint failed: authors.email", db)
  else
    (ApiResult.ok (newAuthorRow db a today),
     { db with authors := db.authors ++ [newAuthorRow db a today],
               nextAuthorId := db.nextAuthorId + 1 })

/-- GET /authors/ — read_authors, paginated list. -/
def read_authors (db : DB) (skip limit : Int) : List AuthorRow :=
  sqlitePage db.authors limit skip

/-- GET /authors/id — read_author. -/
def read_author (db : DB) (i : Int) : ApiResult AuthorRow :=
  match findAuthor db i with
  | none => ApiResult.httpError 404 "Author not found"
  | some a => ApiResult.ok a

/-- UPDATE authors SET name = ?, email = ?, bio = ? applied to one row:
id and date_registered are not in the SET list and keep their stored
values. -/
def replaceAuthor (r : AuthorRow) (a : AuthorCreate) : AuthorRow :=
  { r with name := a.name, email := a.email, bio := a.bio }

/-- Effect of UPDATE authors SET ... WHERE id = ? on the table: every
row matching the id is rewritten in place. -/
def updateAuthorRows (db : DB) (i : Int) (a : AuthorCreate) : List AuthorRow :=
  db.authors.map (fun r => if r.id == i then replaceAuthor r a else r)

/-- PUT /authors/id — update_author: existence check, then UPDATE (which
may raise on email UNIQUE), then re-select of the stored row. -/
def update_author (db : DB) (i : Int) (a : AuthorCreate) :
    ApiResult AuthorRow × DB :=
  match findAuthor db i with
  | none => (ApiResult.httpError 404 "Author not found", db)
  | some _ =>
    if authorEmailTakenByOther db i a.email then
      (ApiResult.storeError "UNIQUE constraint failed: authors.email", db)
    else
      let db' := { db with authors := updateAuthorRows db i a }
      match findAuthor db' i with
      | some r => (ApiResult.ok r, db')
      | none => (ApiResult.storeError "row missing after update", db')

/-- DELETE /authors/id — delete_author: existence check, then DELETE
FROM authors WHERE id = ?.  Foreign keys are unenforced so the delete
never cascades to books and never fails on referencing books. -/
def delete_author (db : DB) (i : Int) : ApiResult String × DB :=
  match findAuthor db i with
  | none => (ApiResult.httpError 404 "Author not found", db)
  | some _ =>
    (ApiResult.ok ("Author " ++ toString i ++ " deleted successfully"),
     { db with authors := db.authors.filter (fun r => r.id != i) })

/-- The row INSERT INTO publishers builds. -/
def newPublisherRow (db : DB) (p : PublisherCreate) : PublisherRow :=
  ⟨db.nextPublisherId, p.name, p.address, p.phone, p.email⟩

/-- POST /publishers/ — create_publisher. -/
def create_publisher (db : DB) (p : PublisherCreate) :
    ApiResult PublisherRow × DB :=
  if publisherEmailTaken db p.email then
    (ApiResult.storeError "UNIQUE constraint failed: publishers.email", db)
  else
    (ApiResult.ok (newPublisherRow db p),
     { db with publishers := db.publishers ++ [newPublisherRow db p],
               nextPublisherId := db.nextPublisherId + 1 })

/-- GET /publishers/ — read_publishers. -/
def read_publishers (db : DB) (skip limit : Int) : List PublisherRow :=
  sqlitePage db.publishers limit skip

/-- GET /publishers/id — read_publisher. -/
def read_publisher (db : DB) (i : Int) : ApiResult PublisherRow :=
  match findPublisher db i with
  | none => ApiResult.httpError 404 "Publisher not found"
  | some p => ApiResult.ok p

/-- UPDATE publishers SET name = ?, address = ?, phone = ?, email = ?
applied to one row. -/
def replacePublisher (r : PublisherRow) (p : PublisherCreate) : PublisherRow :=
  { r with name := p.name, address := p.address, phone := p.phone,
           email := p.email }

/-- Effect of UPDATE publishers SET ... WHERE id = ? on the table. -/
def updatePublisherRows (db : DB) (i : Int) (p : PublisherCreate) : List PublisherRow :=
  db.publishers.map (fun r => if r.id == i then replacePublisher r p else r)

/-- PUT /publishers/id — update_publisher. -/
def update_publisher (db : DB) (i : Int) (p : PublisherCreate) :
    ApiResult PublisherRow × DB :=
  match findPublisher db i with
  | none => (ApiResult.httpError 404 "Publisher not found", db)
  | some _ =>
    if publisherEmailTakenByOther db i p.email then
      (ApiResult.storeError "UNIQUE constraint failed: publishers.email", db)
    else
      let db' := { db with publishers := updatePublisherRows db i p }
      match findPublisher db' i with
      | some r => (ApiResult.ok r, db')
      | none => (ApiResult.storeError "row missing after update", db')

/-- DELETE /publishers/id — delete_publisher. -/
def delete_publisher (db : DB) (i : Int) : ApiResult String × DB :=
  match findPublisher db i with
  | none => (ApiResult.httpError 404 "Publisher not found", db)
  | some _ =>
    (ApiResult.ok ("Publisher " ++ toString i ++ " deleted successfully"),
     { db with publishers := db.publishers.filter (fun r => r.id != i) })

/-- The row INSERT INTO books builds. -/
def newBookRow (db : DB) (b : BookCreate) : BookRow :=
  ⟨db.nextBookId, b.title, b.description, b.isbn, b.publication_date,
   b.price, b.genre, b.author_id, b.publisher_id⟩

/-- Effect of a successful INSERT INTO books: the new row is appended
and the AUTOINCREMENT counter advances. -/
def insertBook (db : DB) (b : BookCreate) : DB :=
  { db with books := db.books ++ [newBookRow db b],
            nextBookId := db.nextBookId + 1 }

/-- POST /books/ — create_book: validate author_id if provided, then
publisher_id if provided, then INSERT (which may raise on the isbn
UNIQUE constraint, uncaught). -/
def create_book (db : DB) (b : BookCreate) : ApiResult BookRow × DB :=
  if refMissingAuthor db b.author_id then
    (ApiResult.httpError 404 "Author not found", db)
  else if refMissingPublisher db b.publisher_id then
    (ApiResult.httpError 404 "Publisher not found", db)
  else if bookIsbnTaken db b.isbn then
    (ApiResult.storeError "UNIQUE constraint failed: books.isbn", db)
  else
    (ApiResult.ok (newBookRow db b), insertBook db b)

/-- Python truthiness of an optional string: None and "" are falsy, so
the handler adds no WHERE condition for them. -/
def strTruthy : Option String → Bool
  | none => false
  | some s => ! (s == "")

/-- Python truthiness of an optional int: None and 0 are falsy. -/
def intTruthy : Option Int → Bool
  | none => false
  | some n => ! (n == 0)

/-- The WHERE clause read_books assembles: one exact-equality condition
per truthy filter, joined by AND.  SQL `col = ?` is false on a NULL
column, which `bk.field == some v` captures. -/
def matchesFilters (genre : Option String) (aid pid : Option Int)
    (bk : BookRow) : Bool :=
  (! strTruthy genre || bk.genre == genre) &&
  (! intTruthy aid || bk.author_id == aid) &&
  (! intTruthy pid || bk.publisher_id == pid)

/-- GET /books/ — read_books: dynamic filtered query, pagination applied
after the filters. -/
def read_books (db : DB) (skip limit : Int) (genre : Option String)
    (author_id publisher_id : Option Int) : List BookRow :=
  sqlitePage (db.books.filter (matchesFilters genre author_id publisher_id))
    limit skip

/-- GET /books/id — read_book. -/
def read_book (db : DB) (i : Int) : ApiResult BookRow :=
  match findBook db i with
  | none => ApiResult.httpError 404 "Book not found"
  | some b => ApiResult.ok b

/-- UPDATE books SET title = ?, ... WHERE id = ? applied to one row:
every column except id comes from the request body. -/
def replaceBook (r : BookRow) (b : BookCreate) : BookRow :=
  { r with title := b.title, description := b.description, isbn := b.isbn,
           publication_date := b.publication_date, price := b.price,
           genre := b.genre, author_id := b.author_id,
           publisher_id := b.publisher_id }

/-- Effect of UPDATE books SET ... WHERE id = ? on the table. -/
def updateBookRows (db : DB) (i : Int) (b : BookCreate) : List BookRow :=
  db.books.map (fun r => if r.id == i then replaceBook r b else r)

/-- PUT /books/id — update_book: existence check on the book, then the
author/publisher reference checks in that order, then UPDATE (isbn
UNIQUE uncaught), then re-select. -/
def update_book (db : DB) (i : Int) (b : BookCreate) :
    ApiResult BookRow × DB :=
  match findBook db i with
  | none => (ApiResult.httpError 404 "Book not found", db)
  | some _ =>
    if refMissingAuthor db b.author_id then
      (ApiResult.httpError 404 "Author not found", db)
    else if refMissingPublisher db b.publisher_id then
      (ApiResult.httpError 404 "Publisher not found", db)
    else if bookIsbnTakenByOther db i b.isbn then
      (ApiResult.storeError "UNIQUE constraint failed: books.isbn", db)
    else
      let db' := { db with books := updateBookRows db i b }
      match findBook db' i with
      | some r => (ApiResult.ok r, db')
      | none => (ApiResult.storeError "row missing after update", db')

/-- DELETE /books/id — delete_book. -/
def delete_book (db : DB) (i : Int) : ApiResult String × DB :=
  match findBook db i with
  | none => (ApiResult.httpError 404 "Book not found", db)
  | some _ =>
    (ApiResult.ok ("Book " ++ toString i ++ " deleted successfully"),
     { db with books := db.books.filter (fun r => r.id != i) })

/-! ### Shared lemmas -/

/-- find? over an in-place UPDATE (map that rewrites exactly the rows
matched by the predicate): if rewriting preserves the predicate, the
row found afterwards is the rewritten original. -/
theorem find_map_if {α : Type} (p : α → Bool) (f : α → α)
    (hf : ∀ r, p r = true → p (f r) = true) :
    ∀ (l : List α) (a : α), l.find? p = some a →
      (l.map (fun r => if p r then f r else r)).find? p = some (f a) := by
  intro l
  induction l with
  | nil => intro a h; simp at h
  | cons x xs ih =>
    intro a h
    by_cases hx : p x = true
    · rw [List.find?_cons_of_pos _ hx] at h
      obtain rfl : x = a := by injection h
      simp only [List.map_cons, if_pos hx]
      exact List.find?_cons_of_pos _ (hf x hx)
    · rw [List.find?_cons_of_neg _ hx] at h
      simp only [List.map_cons, if_neg hx]
      rw [List.find?_cons_of_neg _ hx]
      exact ih a h

/-! ### C1 — falsy filter values in the book listing -/

/-- Concrete store for the C1 counterexample: one book whose author_id
is 1. -/
def bookC1 : BookRow :=
  ⟨1, "Pride and Prejudice", none, some "9780141439518", none, none,
   some "Classic", some 1, some 1⟩

/-- Store holding exactly bookC1. -/
def dbC1 : DB := ⟨[], [], [bookC1], 1, 1, 2⟩

/-- C1 counterexample: a books-list request supplying the falsy filter
author_id = 0 does not narrow the result set to rows matching 0 — the
stored book with author_id = 1 is still returned, because the handler
tests truthiness, not presence, when assembling the WHERE clause. -/
theorem read_books_falsy_filter_counterexample :
    read_books dbC1 0 100 none (some 0) none = [bookC1] ∧
    bookC1.author_id ≠ some 0 := by
  constructor
  · rfl
  · decide

/-- C1 amended: filter values equal to the zero/falsy value of their
type (genre = "", author_id = 0, publisher_id = 0) are dropped from the
WHERE clause, so the listing treats them exactly as if the filter were
absent: they impose no constraint at all. -/
theorem read_books_falsy_filters_are_ignored (db : DB) (skip limit : Int) :
    read_books db skip limit (some "") (some 0) (some 0) =
      read_books db skip limit none none none := by
  have h : matchesFilters (some "") (some 0) (some 0) =
      matchesFilters none none none := by
    funext bk
    simp [matchesFilters, strTruthy, intTruthy]
  simp only [read_books, h]

/-! ### C4 — nonexistent ids give NotFound and leave the store alone -/

/-- C4: for each entity, get/update/delete on an id absent from the
store yield exactly the 404 NotFound condition naming that entity, and
the store comes back unchanged — the mutating statement never runs. -/
theorem missing_id_yields_notfound_and_no_mutation
    (db : DB) (ia ip ib : Int)
    (a : AuthorCreate) (p : PublisherCreate) (b : BookCreate) :
    (findAuthor db ia = none →
       read_author db ia = ApiResult.httpError 404 "Author not found" ∧
       update_author db ia a = (ApiResult.httpError 404 "Author not found", db) ∧
       delete_author db ia = (ApiResult.httpError 404 "Author not found", db)) ∧
    (findPublisher db ip = none →
       read_publisher db ip = ApiResult.httpError 404 "Publisher not found" ∧
       update_publisher db ip p = (ApiResult.httpError 404 "Publisher not found", db) ∧
       delete_publisher db ip = (ApiResult.httpError 404 "Publisher not found", db)) ∧
    (findBook db ib = none →
       read_book db ib = ApiResult.httpError 404 "Book not found" ∧
       update_book db ib b = (ApiResult.httpError 404 "Book not found", db) ∧
       delete_book db ib = (ApiResult.httpError 404 "Book not found", db)) := by
  refine ⟨fun h => ?_, fun h => ?_, fun h => ?_⟩
  · exact ⟨by simp [read_author, h], by simp [update_author, h],
           by simp [delete_author, h]⟩
  · exact ⟨by simp [read_publisher, h], by simp [update_publisher, h],
           by simp [delete_publisher, h]⟩
  · exact ⟨by simp [read_book, h], by simp [update_book, h],
           by simp [delete_book, h]⟩

/-- Empty store used by the C4 witness. -/
def dbC4 : DB := ⟨[], [], [], 1, 1, 1⟩

/-- Author body used by the C4 witness. -/
def authorInC4 : AuthorCreate := ⟨"A", none, none⟩

/-- Publisher body used by the C4 witness. -/
def publisherInC4 : PublisherCreate := ⟨"P", none, none, none⟩

/-- Book body used by the C4 witness. -/
def bookInC4 : BookCreate := ⟨"B", none, none, none, none, none, none, none⟩

/-- C4 witness: on the empty store, id 42 is absent for every entity;
instantiating the theorem there gives the 404 conditions with the store
unchanged. -/
theorem missing_id_yields_notfound_witness :
    read_author dbC4 42 = ApiResult.httpError 404 "Author not found" ∧
    update_publisher dbC4 42 publisherInC4 =
      (ApiResult.httpError 404 "Publisher not found", dbC4) ∧
    delete_book dbC4 42 = (ApiResult.httpError 404 "Book not found", dbC4) := by
  obtain ⟨h1, h2, h3⟩ :=
    missing_id_yields_notfound_and_no_mutation dbC4 42 42 42
      authorInC4 publisherInC4 bookInC4
  exact ⟨(h1 rfl).1, (h2 rfl).2.1, (h3 rfl).2.2⟩

/-! ### C2 — missing referenced author/publisher rejects the write -/

/-- C2: a book create or update whose non-null author_id matches no
author row fails with 404 "Author not found", and symmetrically a
non-null unmatched publisher_id fails with "Publisher not found"; in
every case the store — in particular the books table — comes back
unchanged, so no INSERT or UPDATE statement ran. -/
theorem book_write_missing_reference_rejected
    (db : DB) (b : BookCreate) (i : Int) :
    (∀ aid, b.author_id = some aid → authorIdExists db aid = false →
       create_book db b = (ApiResult.httpError 404 "Author not found", db)) ∧
    (∀ pid, refMissingAuthor db b.author_id = false →
       b.publisher_id = some pid → publisherIdExists db pid = false →
       create_book db b = (ApiResult.httpError 404 "Publisher not found", db)) ∧
    (∀ aid bk, findBook db i = some bk →
       b.author_id = some aid → authorIdExists db aid = false →
       update_book db i b = (ApiResult.httpError 404 "Author not found", db)) ∧
    (∀ pid bk, findBook db i = some bk →
       refMissingAuthor db b.author_id = false →
       b.publisher_id = some pid → publisherIdExists db pid = false →
       update_book db i b = (ApiResult.httpError 404 "Publisher not found", db)) := by
  refine ⟨?_, ?_, ?_, ?_⟩
  · intro aid ha he
    simp [create_book, refMissingAuthor, ha, he]
  · intro pid hma hp he
    simp [create_book, hma, refMissingPublisher, hp, he]
  · intro aid bk hbk ha he
    simp [update_book, hbk, refMissingAuthor, ha, he]
  · intro pid bk hbk hma hp he
    simp [update_book, hbk, hma, refMissingPublisher, hp, he]

/-- Stored author for the C2 witness. -/
def authorC2 : AuthorRow :=
  ⟨1, "Jane Austen", some "jane@example.com", none, "2026-01-01"⟩

/-- Stored publisher for the C2 witness. -/
def publisherC2 : PublisherRow :=
  ⟨1, "Penguin Random House", none, none, some "info@prh.com"⟩

/-- Stored book for the C2 witness. -/
def bookC2 : BookRow :=
  ⟨1, "Pride and Prejudice", none, none, none, none, some "Classic",
   some 1, some 1⟩

/-- Store for the C2 witness: author 1, publisher 1, book 1. -/
def dbC2 : DB := ⟨[authorC2], [publisherC2], [bookC2], 2, 2, 2⟩

/-- Book body with the spec's non-existent author_id = 9999. -/
def badAuthorBookC2 : BookCreate :=
  ⟨"Emma", none, none, none, none, none, some 9999, some 1⟩

/-- Book body with a valid author and non-existent publisher_id = 9999. -/
def badPublisherBookC2 : BookCreate :=
  ⟨"Emma", none, none, none, none, none, some 1, some 9999⟩

/-- C2 witness: with author_id = 9999 (no such author) create and update
both answer 404 "Author not found", and with publisher_id = 9999 they
answer "Publisher not found", the store unchanged each time. -/
theorem book_write_missing_reference_rejected_witness :
    create_book dbC2 badAuthorBookC2 =
      (ApiResult.httpError 404 "Author not found", dbC2) ∧
    create_book dbC2 badPublisherBookC2 =
      (ApiResult.httpError 404 "Publisher not found", dbC2) ∧
    update_book dbC2 1 badAuthorBookC2 =
      (ApiResult.httpError 404 "Author not found", dbC2) ∧
    update_book dbC2 1 badPublisherBookC2 =
      (ApiResult.httpError 404 "Publisher not found", dbC2) := by
  obtain ⟨h1, -, h3, -⟩ :=
    book_write_missing_reference_rejected dbC2 badAuthorBookC2 1
  obtain ⟨-, g2, -, g4⟩ :=
    book_write_missing_reference_rejected dbC2 badPublisherBookC2 1
  exact ⟨h1 9999 rfl (by decide),
         g2 9999 (by decide) rfl (by decide),
         h3 9999 bookC2 (by decide) rfl (by decide),
         g4 9999 bookC2 (by decide) (by decide) rfl (by decide)⟩

/-! ### C10 — author reference is validated before the publisher one -/

/-- C10: when author_id and publisher_id are both non-null and neither
matches a row, the single reported error is "Author not found" — the
publisher check is never reached — for create and update alike. -/
theorem author_checked_before_publisher
    (db : DB) (b : BookCreate) (i : Int) (aid pid : Int)
    (ha : b.author_id = some aid) (hae : authorIdExists db aid = false)
    (hp : b.publisher_id = some pid) (hpe : publisherIdExists db pid = false) :
    create_book db b = (ApiResult.httpError 404 "Author not found", db) ∧
    (∀ bk, findBook db i = some bk →
       update_book db i b = (ApiResult.httpError 404 "Author not found", db)) := by
  constructor
  · simp [create_book, refMissingAuthor, ha, hae]
  · intro bk hbk
    simp [update_book, hbk, refMissingAuthor, ha, hae]

/-- Stored book for the C10 witness. -/
def bookC10 : BookRow :=
  ⟨1, "1984", none, none, none, none, some "Dystopian", none, none⟩

/-- Store for the C10 witness: no authors, no publishers, one book. -/
def dbC10 : DB := ⟨[], [], [bookC10], 1, 1, 2⟩

/-- Book body whose author and publisher references are both dangling. -/
def bothBadBookC10 : BookCreate :=
  ⟨"Animal Farm", none, none, none, none, none, some 7, some 8⟩

/-- C10 witness: with author_id = 7 and publisher_id = 8 both absent,
create and update on the concrete store report only "Author not
found". -/
theorem author_checked_before_publisher_witness :
    create_book dbC10 bothBadBookC10 =
      (ApiResult.httpError 404 "Author not found", dbC10) ∧
    update_book dbC10 1 bothBadBookC10 =
      (ApiResult.httpError 404 "Author not found", dbC10) := by
  obtain ⟨h1, h2⟩ :=
    author_checked_before_publisher dbC10 bothBadBookC10 1 7 8
      rfl (by decide) rfl (by decide)
  exact ⟨h1, h2 bookC10 rfl⟩

/-! ### C3 — uniqueness conflicts are not translated to client errors -/

/-- Stored author for C3: holds the email the duplicates will collide
with. -/
def authorC3 : AuthorRow :=
  ⟨1, "Jane Austen", some "jane@example.com", none, "2026-01-01"⟩

/-- Second stored author for C3: target of the conflicting update. -/
def authorC3b : AuthorRow :=
  ⟨2, "Emily Bronte", some "emily@example.com", none, "2026-01-02"⟩

/-- Stored publisher for C3: holds the email the duplicates will
collide with. -/
def publisherC3 : PublisherRow :=
  ⟨1, "Penguin Random House", none, none, some "info@prh.com"⟩

/-- Second stored publisher for C3: target of the conflicting update. -/
def publisherC3b : PublisherRow :=
  ⟨2, "HarperCollins", none, none, some "info@harpercollins.com"⟩

/-- Stored book for C3: holds the isbn the duplicates will collide
with. -/
def bookC3 : BookRow :=
  ⟨1, "Pride and Prejudice", none, some "9780141439518", none, none,
   none, some 1, none⟩

/-- Second stored book for C3: target of the conflicting update. -/
def bookC3b : BookRow :=
  ⟨2, "Jane Eyre", none, some "9780142437209", none, none, none, none, none⟩

/-- Store for C3. -/
def dbC3 : DB :=
  ⟨[authorC3, authorC3b], [publisherC3, publisherC3b], [bookC3, bookC3b],
   3, 3, 3⟩

/-- Author body duplicating the stored email of author 1. -/
def dupEmailC3 : AuthorCreate := ⟨"Jane Clone", some "jane@example.com", none⟩

/-- Publisher body duplicating the stored email of publisher 1. -/
def dupPublisherC3 : PublisherCreate :=
  ⟨"Clone Press", none, none, some "info@prh.com"⟩

/-- Book body duplicating the stored isbn of book 1. -/
def dupIsbnC3 : BookCreate :=
  ⟨"Pride and Prejudice 2", none, some "9780141439518", none, none, none,
   none, none⟩

/-- C3 counterexample: creating an author whose email duplicates a
stored one yields the store's uniqueness exception unhandled (a server
crash), not a structured client-error response — and there is no status
code and detail for which the outcome is an HTTP error response. -/
theorem duplicate_email_counterexample :
    create_author dbC3 dupEmailC3 "2026-02-02" =
      (ApiResult.storeError "UNIQUE constraint failed: authors.email", dbC3) ∧
    ¬ ∃ code detail, (create_author dbC3 dupEmailC3 "2026-02-02").1 =
        ApiResult.httpError code detail := by
  have h : create_author dbC3 dupEmailC3 "2026-02-02" =
      (ApiResult.storeError "UNIQUE constraint failed: authors.email", dbC3) := by
    decide
  refine ⟨h, ?_⟩
  rintro ⟨code, detail, hne⟩
  rw [h] at hne
  exact ApiResult.noConfusion hne

/-- C3 amended: the handlers install no translation for store
uniqueness conflicts: a create or update whose author email, publisher
email or book isbn duplicates a stored value propagates the store's
constraint exception unhandled (a server error), leaving the store
unchanged. -/
theorem uniqueness_conflict_propagates_store_exception
    (db : DB) (i : Int) (a : AuthorCreate) (p : PublisherCreate)
    (b : BookCreate) (today : String) :
    (authorEmailTaken db a.email = true →
       create_author db a today =
         (ApiResult.storeError "UNIQUE constraint failed: authors.email", db)) ∧
    (publisherEmailTaken db p.email = true →
       create_publisher db p =
         (ApiResult.storeError "UNIQUE constraint failed: publishers.email", db)) ∧
    (refMissingAuthor db b.author_id = false →
     refMissingPublisher db b.publisher_id = false →
     bookIsbnTaken db b.isbn = true →
       create_book db b =
         (ApiResult.storeError "UNIQUE constraint failed: books.isbn", db)) ∧
    (∀ a0, findAuthor db i = some a0 →
     authorEmailTakenByOther db i a.email = true →
       update_author db i a =
         (ApiResult.storeError "UNIQUE constraint failed: authors.email", db)) ∧
    (∀ p0, findPublisher db i = some p0 →
     publisherEmailTakenByOther db i p.email = true →
       update_publisher db i p =
         (ApiResult.storeError "UNIQUE constraint failed: publishers.email", db)) ∧
    (∀ b0, findBook db i = some b0 →
     refMissingAuthor db b.author_id = false →
     refMissingPublisher db b.publisher_id = false →
     bookIsbnTakenByOther db i b.isbn = true →
       update_book db i b =
         (ApiResult.storeError "UNIQUE constraint failed: books.isbn", db)) := by
  refine ⟨?_, ?_, ?_, ?_, ?_, ?_⟩
  · intro h
    simp [create_author, h]
  · intro h
    simp [create_publisher, h]
  · intro h1 h2 h3
    simp [create_book, h1, h2, h3]
  · intro a0 h0 hm
    simp [update_author, h0, hm]
  · intro p0 h0 hm
    simp [update_publisher, h0, hm]
  · intro b0 h0 h1 h2 h3
    simp [update_book, h0, h1, h2, h3]

/-- C3 witness for the amended claim: on the concrete store, the
duplicate author email, duplicate publisher email and duplicate book
isbn all surface as store exceptions, on create and on update alike. -/
theorem uniqueness_conflict_witness :
    create_author dbC3 dupEmailC3 "2026-02-02" =
      (ApiResult.storeError "UNIQUE constraint failed: authors.email", dbC3) ∧
    create_publisher dbC3 dupPublisherC3 =
      (ApiResult.storeError "UNIQUE constraint failed: publishers.email", dbC3) ∧
    create_book dbC3 dupIsbnC3 =
      (ApiResult.storeError "UNIQUE constraint failed: books.isbn", dbC3) ∧
    update_author dbC3 2 dupEmailC3 =
      (ApiResult.storeError "UNIQUE constraint failed: authors.email", dbC3) ∧
    update_publisher dbC3 2 dupPublisherC3 =
      (ApiResult.storeError "UNIQUE constraint failed: publishers.email", dbC3) ∧
    update_book dbC3 2 dupIsbnC3 =
      (ApiResult.storeError "UNIQUE constraint failed: books.isbn", dbC3) := by
  obtain ⟨h1, h2, h3, h4, h5, h6⟩ :=
    uniqueness_conflict_propagates_store_exception dbC3 2 dupEmailC3
      dupPublisherC3 dupIsbnC3 "2026-02-02"
  exact ⟨h1 (by decide), h2 (by decide),
         h3 (by decide) (by decide) (by decide),
         h4 authorC3b rfl (by decide), h5 publisherC3b rfl (by decide),
         h6 bookC3b rfl (by decide) (by decide) (by decide)⟩

/-! ### C5 — null references always pass validation -/

/-- C5: with author_id and publisher_id null, the referential checks
pass unconditionally for every store — whatever its authors and
publishers tables hold, including nothing at all — so a create whose
isbn raises no conflict succeeds and inserts the row, and an update of
an existing book likewise succeeds. -/
theorem null_references_always_valid (db : DB) (b : BookCreate) (i : Int)
    (ha : b.author_id = none) (hp : b.publisher_id = none) :
    refMissingAuthor db b.author_id = false ∧
    refMissingPublisher db b.publisher_id = false ∧
    (bookIsbnTaken db b.isbn = false →
       create_book db b = (ApiResult.ok (newBookRow db b), insertBook db b)) ∧
    (∀ bk, findBook db i = some bk →
       bookIsbnTakenByOther db i b.isbn = false →
       ∃ db', update_book db i b = (ApiResult.ok (replaceBook bk b), db')) := by
  refine ⟨by simp [refMissingAuthor, ha], by simp [refMissingPublisher, hp],
          ?_, ?_⟩
  · intro hisbn
    simp [create_book, refMissingAuthor, refMissingPublisher, ha, hp, hisbn]
  · intro bk hbk hisbn
    have hbk' : db.books.find? (fun (r : BookRow) => r.id == i) = some bk := hbk
    have hfind := find_map_if (fun (r : BookRow) => r.id == i)
      (fun r => replaceBook r b) (fun r hr => hr) db.books bk hbk'
    simp only [findBook] at hfind
    simp at hfind
    obtain ⟨a, hfa, hae⟩ := hfind
    refine ⟨{ db with books := updateBookRows db i b }, ?_⟩
    simp [update_book, hbk, hbk', refMissingAuthor, refMissingPublisher, ha,
          hp, hisbn, findBook, updateBookRows, hfa, hae]

/-- Stored book for the C5 witness: no references at all. -/
def bookC5 : BookRow := ⟨1, "Orphan", none, none, none, none, none, none, none⟩

/-- Store for the C5 witness: one book, zero authors, zero publishers. -/
def dbC5 : DB := ⟨[], [], [bookC5], 1, 1, 2⟩

/-- Book body with null author_id and publisher_id. -/
def bookInC5 : BookCreate := ⟨"Loner", none, none, none, none, none, none, none⟩

/-- C5 witness: on a store with no authors and no publishers at all,
creating and updating a book whose references are null both succeed. -/
theorem null_references_always_valid_witness :
    create_book dbC5 bookInC5 =
      (ApiResult.ok (newBookRow dbC5 bookInC5), insertBook dbC5 bookInC5) ∧
    ∃ db', update_book dbC5 1 bookInC5 =
      (ApiResult.ok (replaceBook bookC5 bookInC5), db') := by
  obtain ⟨-, -, h3, h4⟩ := null_references_always_valid dbC5 bookInC5 1 rfl rfl
  exact ⟨h3 rfl, h4 bookC5 rfl rfl⟩

/-! ### C9 — deleting an author does not cascade to books -/

/-- C9: delete_author never touches the books or publishers tables; when
the author exists the delete succeeds even if books reference it (the
store does not enforce the foreign key), removes exactly the author rows
with that id, and fetching any book afterwards returns exactly what it
returned before — the dangling author_id persists. -/
theorem delete_author_leaves_books_alone (db : DB) (aid i : Int) :
    (delete_author db aid).2.books = db.books ∧
    (delete_author db aid).2.publishers = db.publishers ∧
    (∀ a0, findAuthor db aid = some a0 →
       (delete_author db aid).1 =
         ApiResult.ok ("Author " ++ toString aid ++ " deleted successfully") ∧
       (delete_author db aid).2.authors =
         db.authors.filter (fun r => r.id != aid)) ∧
    read_book (delete_author db aid).2 i = read_book db i := by
  have hbooks : (delete_author db aid).2.books = db.books := by
    cases h : findAuthor db aid <;> simp [delete_author, h]
  have hpubs : (delete_author db aid).2.publishers = db.publishers := by
    cases h : findAuthor db aid <;> simp [delete_author, h]
  refine ⟨hbooks, hpubs, ?_, ?_⟩
  · intro a0 h
    exact ⟨by simp [delete_author, h], by simp [delete_author, h]⟩
  · simp [read_book, findBook, hbooks]

/-- Stored author for the C9 witness. -/
def authorC9 : AuthorRow :=
  ⟨1, "George Orwell", some "george@example.com", none, "2026-01-01"⟩

/-- Stored book for the C9 witness: references author 1. -/
def bookC9 : BookRow :=
  ⟨1, "1984", none, none, none, none, some "Dystopian", some 1, none⟩

/-- Store for the C9 witness. -/
def dbC9 : DB := ⟨[authorC9], [], [bookC9], 2, 1, 2⟩

/-- C9 witness: deleting author 1, which book 1 references, succeeds,
leaves the books table unchanged, and re-fetching book 1 still succeeds
with the dangling author_id = 1 in place. -/
theorem delete_author_leaves_books_alone_witness :
    (delete_author dbC9 1).1 =
      ApiResult.ok ("Author " ++ toString (1 : Int) ++ " deleted successfully") ∧
    (delete_author dbC9 1).2.books = dbC9.books ∧
    read_book (delete_author dbC9 1).2 1 = read_book dbC9 1 := by
  obtain ⟨h1, -, h3, h4⟩ := delete_author_leaves_books_alone dbC9 1 1
  exact ⟨(h3 authorC9 rfl).1, h1, h4⟩

/-! ### C6 — update is full replacement, confirmed by a following get -/

/-- C6: the UPDATE statements overwrite every column in their SET list
with the request-body value — name/email/bio for authors,
name/address/phone/email for publishers, all eight body columns for
books — keeping only the id (and, for authors, the server-assigned
date_registered, which has no counterpart in the request body); a get by
the same id afterwards returns exactly the replaced record, never the
original values. -/
theorem update_full_replacement_roundtrip (db : DB) (i : Int) :
    (∀ (a0 : AuthorRow) (a : AuthorCreate), findAuthor db i = some a0 →
       authorEmailTakenByOther db i a.email = false →
       (replaceAuthor a0 a).name = a.name ∧
       (replaceAuthor a0 a).email = a.email ∧
       (replaceAuthor a0 a).bio = a.bio ∧
       (replaceAuthor a0 a).id = a0.id ∧
       (replaceAuthor a0 a).date_registered = a0.date_registered ∧
       ∃ db', update_author db i a = (ApiResult.ok (replaceAuthor a0 a), db') ∧
         read_author db' i = ApiResult.ok (replaceAuthor a0 a)) ∧
    (∀ (p0 : PublisherRow) (p : PublisherCreate), findPublisher db i = some p0 →
       publisherEmailTakenByOther db i p.email = false →
       (replacePublisher p0 p).name = p.name ∧
       (replacePublisher p0 p).address = p.address ∧
       (replacePublisher p0 p).phone = p.phone ∧
       (replacePublisher p0 p).email = p.email ∧
       (replacePublisher p0 p).id = p0.id ∧
       ∃ db', update_publisher db i p = (ApiResult.ok (replacePublisher p0 p), db') ∧
         read_publisher db' i = ApiResult.ok (replacePublisher p0 p)) ∧
    (∀ (b0 : BookRow) (b : BookCreate), findBook db i = some b0 →
       refMissingAuthor db b.author_id = false →
       refMissingPublisher db b.publisher_id = false →
       bookIsbnTakenByOther db i b.isbn = false →
       (replaceBook b0 b).title = b.title ∧
       (replaceBook b0 b).description = b.description ∧
       (replaceBook b0 b).isbn = b.isbn ∧
       (replaceBook b0 b).publication_date = b.publication_date ∧
       (replaceBook b0 b).price = b.price ∧
       (replaceBook b0 b).genre = b.genre ∧
       (replaceBook b0 b).author_id = b.author_id ∧
       (replaceBook b0 b).publisher_id = b.publisher_id ∧
       (replaceBook b0 b).id = b0.id ∧
       ∃ db', update_book db i b = (ApiResult.ok (replaceBook b0 b), db') ∧
         read_book db' i = ApiResult.ok (replaceBook b0 b)) := by
  refine ⟨?_, ?_, ?_⟩
  · intro a0 a h0 hmail
    have h0' : db.authors.find? (fun (r : AuthorRow) => r.id == i) = some a0 := h0
    have hfind := find_map_if (fun (r : AuthorRow) => r.id == i)
      (fun r => replaceAuthor r a) (fun r hr => hr) db.authors a0 h0'
    simp at hfind
    obtain ⟨x, hfa, hae⟩ := hfind
    refine ⟨rfl, rfl, rfl, rfl, rfl,
            { db with authors := updateAuthorRows db i a }, ?_, ?_⟩
    · simp [update_author, h0, h0', hmail, findAuthor, updateAuthorRows,
            hfa, hae]
    · simp [read_author, findAuthor, updateAuthorRows, hfa, hae]
  · intro p0 p h0 hmail
    have h0' : db.publishers.find? (fun (r : PublisherRow) => r.id == i) = some p0 := h0
    have hfind := find_map_if (fun (r : PublisherRow) => r.id == i)
      (fun r => replacePublisher r p) (fun r hr => hr) db.publishers p0 h0'
    simp at hfind
    obtain ⟨x, hfa, hae⟩ := hfind
    refine ⟨rfl, rfl, rfl, rfl, rfl,
            { db with publishers := updatePublisherRows db i p }, ?_, ?_⟩
    · simp [update_publisher, h0, h0', hmail, findPublisher,
            updatePublisherRows, hfa, hae]
    · simp [read_publisher, findPublisher, updatePublisherRows, hfa, hae]
  · intro b0 b h0 hra hrp hisbn
    have h0' : db.books.find? (fun (r : BookRow) => r.id == i) = some b0 := h0
    have hfind := find_map_if (fun (r : BookRow) => r.id == i)
      (fun r => replaceBook r b) (fun r hr => hr) db.books b0 h0'
    simp at hfind
    obtain ⟨x, hfa, hae⟩ := hfind
    refine ⟨rfl, rfl, rfl, rfl, rfl, rfl, rfl, rfl, rfl,
            { db with books := updateBookRows db i b }, ?_, ?_⟩
    · simp [update_book, h0, h0', hra, hrp, hisbn, findBook, updateBookRows,
            hfa, hae]
    · simp [read_book, findBook, updateBookRows, hfa, hae]

/-- Stored author for the C6 witness. -/
def authorC6 : AuthorRow :=
  ⟨1, "Old Name", some "old@example.com", some "old bio text", "2026-01-01"⟩

/-- Stored book for the C6 witness. -/
def bookC6 : BookRow :=
  ⟨1, "Old Title", some "old", some "111", none, none, some "OldGenre",
   some 1, none⟩

/-- Store for the C6 witness. -/
def dbC6 : DB := ⟨[authorC6], [], [bookC6], 2, 1, 2⟩

/-- Replacement author body for the C6 witness: every field new. -/
def authorInC6 : AuthorCreate := ⟨"New Name", some "new@example.com", none⟩

/-- Replacement book body for the C6 witness: every field new. -/
def bookInC6 : BookCreate :=
  ⟨"New Title", none, some "222", some "2026-05-05", none, some "NewGenre",
   some 1, none⟩

/-- C6 witness: updating author 1 and book 1 replaces every body field
and the subsequent get returns the replaced records. -/
theorem update_full_replacement_roundtrip_witness :
    (∃ db', update_author dbC6 1 authorInC6 =
        (ApiResult.ok (replaceAuthor authorC6 authorInC6), db') ∧
      read_author db' 1 = ApiResult.ok (replaceAuthor authorC6 authorInC6)) ∧
    (∃ db', update_book dbC6 1 bookInC6 =
        (ApiResult.ok (replaceBook bookC6 bookInC6), db') ∧
      read_book db' 1 = ApiResult.ok (replaceBook bookC6 bookInC6)) := by
  obtain ⟨h1, -, h3⟩ := update_full_replacement_roundtrip dbC6 1
  obtain ⟨-, -, -, -, -, db1, hu1, hr1⟩ :=
    h1 authorC6 authorInC6 rfl (by decide)
  obtain ⟨-, -, -, -, -, -, -, -, -, db2, hu2, hr2⟩ :=
    h3 bookC6 bookInC6 rfl (by decide) (by decide) (by decide)
  exact ⟨⟨db1, hu1, hr1⟩, ⟨db2, hu2, hr2⟩⟩

/-! ### C7 — exact-match AND semantics of the book filters -/

/-- Rows returned by a page are rows of the table. -/
theorem sqlitePage_subset {α : Type} (rows : List α) (limit skip : Int) :
    ∀ x ∈ sqlitePage rows limit skip, x ∈ rows := by
  intro x hx
  simp only [sqlitePage] at hx
  by_cases hl : limit < 0
  · rw [if_pos hl] at hx
    exact List.drop_subset _ _ hx
  · rw [if_neg hl] at hx
    exact List.drop_subset _ _ (List.take_subset _ _ hx)

/-- Stored book for the C7 counterexample. -/
def bookC7 : BookRow :=
  ⟨1, "Wuthering Heights", none, none, none, none, some "Classic", none, none⟩

/-- Store for the C7 counterexample. -/
def dbC7 : DB := ⟨[], [], [bookC7], 1, 1, 2⟩

/-- C7 counterexample: the empty string is a supplied genre filter, yet
the listing returns the stored book whose genre is "Classic" — not
exactly equal to the supplied string — because the handler drops falsy
filter values when assembling the WHERE clause. -/
theorem genre_filter_empty_string_counterexample :
    read_books dbC7 0 100 (some "") none none = [bookC7] ∧
    bookC7.genre ≠ some "" := by
  exact ⟨rfl, by decide⟩

/-- C7 amended: for every truthy supplied filter — non-empty genre,
non-zero author or publisher id — the listing applies exact string or id
equality (so genre "Classical" never matches filter "Classic") and all
such filters conjunctively; filters left out constrain nothing, the
whole table being paged unfiltered.  Falsy supplied filters ("" or 0)
are dropped with the omitted ones. -/
theorem read_books_truthy_filters_exact_and (db : DB) (skip limit : Int)
    (g : String) (hg : g ≠ "") (aid pid : Option Int) :
    (∀ bk ∈ read_books db skip limit (some g) aid pid,
       bk.genre = some g ∧
       (intTruthy aid = true → bk.author_id = aid) ∧
       (intTruthy pid = true → bk.publisher_id = pid)) ∧
    read_books db skip limit none none none = sqlitePage db.books limit skip := by
  constructor
  · intro bk hmem
    have hmem' : bk ∈ db.books.filter (matchesFilters (some g) aid pid) :=
      sqlitePage_subset _ limit skip bk hmem
    have h2 := (List.mem_filter.mp hmem').2
    simp only [matchesFilters, Bool.and_eq_true, Bool.or_eq_true,
               Bool.not_eq_true'] at h2
    obtain ⟨⟨hga, hpa⟩, hpp⟩ := h2
    refine ⟨?_, ?_, ?_⟩
    · rcases hga with hga | hga
      · exfalso
        have hg' : g = "" := by simpa [strTruthy] using hga
        exact hg hg'
      · simpa using hga
    · intro ht
      rcases hpa with hpa | hpa
      · rw [ht] at hpa
        simp at hpa
      · simpa using hpa
    · intro ht
      rcases hpp with hpp | hpp
      · rw [ht] at hpp
        simp at hpp
      · simpa using hpp
  · have h : matchesFilters none none none = fun _ => true := by
      funext bk
      simp [matchesFilters, strTruthy, intTruthy]
    simp only [read_books, h, List.filter_true]

/-- Second stored book for the C7 witness: genre "Classical", which the
exact filter "Classic" must not match. -/
def bookC7b : BookRow :=
  ⟨2, "Clay", none, none, none, none, some "Classical", none, none⟩

/-- Store for the C7 witness. -/
def dbC7w : DB := ⟨[], [], [bookC7, bookC7b], 1, 1, 3⟩

/-- C7 witness: instantiating the amended theorem at genre "Classic" on
a store holding a "Classic" and a "Classical" book — the returned
"Classic" book has exactly the filtered genre, and the unfiltered
listing pages the whole table. -/
theorem read_books_truthy_filters_witness :
    bookC7.genre = some "Classic" ∧
    read_books dbC7w 0 100 none none none = sqlitePage dbC7w.books 100 0 := by
  obtain ⟨h1, h2⟩ :=
    read_books_truthy_filters_exact_and dbC7w 0 100 "Classic" (by decide)
      none none
  exact ⟨(h1 bookC7 (by decide)).1, h2⟩

/-! ### C8 — offset/limit pagination in stable creation order -/

/-- C8: the list endpoints page the creation-ordered table: with a
non-negative limit they return the rows after the first skip ones, at
most limit of them (the handler defaults being skip = 0, limit = 100);
on a table of exactly two rows, skip = 1 with limit = 1 returns exactly
the second-created row; and the book listing pages the filtered rows —
pagination applied after the filters. -/
theorem list_pagination_skip_limit (db : DB) (skip limit : Int)
    (a1 a2 : AuthorRow) (g : Option String) (aid pid : Option Int) :
    (0 ≤ limit →
       read_authors db skip limit =
         (db.authors.drop skip.toNat).take limit.toNat ∧
       (read_authors db skip limit).length ≤ limit.toNat) ∧
    read_authors db 0 100 = db.authors.take 100 ∧
    read_publishers db skip limit = sqlitePage db.publishers limit skip ∧
    (db.authors = [a1, a2] → read_authors db 1 1 = [a2]) ∧
    read_books db skip limit g aid pid =
      sqlitePage (db.books.filter (matchesFilters g aid pid)) limit skip := by
  refine ⟨?_, ?_, rfl, ?_, rfl⟩
  · intro hl
    have h : read_authors db skip limit =
        (db.authors.drop skip.toNat).take limit.toNat := by
      simp only [read_authors, sqlitePage]
      rw [if_neg (not_lt.mpr hl)]
    refine ⟨h, ?_⟩
    rw [h]
    exact List.length_take_le _ _
  · rfl
  · intro h
    simp [read_authors, sqlitePage, h]

/-- First-created author for the C8 witness. -/
def authorC8a : AuthorRow := ⟨1, "First Author", none, none, "2026-01-01"⟩

/-- Second-created author for the C8 witness. -/
def authorC8b : AuthorRow := ⟨2, "Second Author", none, none, "2026-01-02"⟩

/-- Store for the C8 witness: a 2-row authors table. -/
def dbC8 : DB := ⟨[authorC8a, authorC8b], [], [], 3, 1, 1⟩

/-- C8 witness: on the 2-row table, skip = 1 and limit = 1 return
exactly the second-created author; defaults return the whole table; the
result length respects the limit. -/
theorem list_pagination_skip_limit_witness :
    read_authors dbC8 1 1 = [authorC8b] ∧
    read_authors dbC8 0 100 = dbC8.authors.take 100 ∧
    (read_authors dbC8 0 2).length ≤ (2 : Int).toNat := by
  obtain ⟨hle, hdef, -, h2, -⟩ :=
    list_pagination_skip_limit dbC8 0 2 authorC8a authorC8b none none none
  exact ⟨h2 rfl, hdef, (hle (by decide)).2⟩
